import Mathlib

/-!
Shallow embedding of `src/main.py` (a BTC 5-minute price-signal bot):
the configuration constants (lines 11-26), the scoring helpers `pct_change`
(lines 63-67) and `zigzag_ratio` (lines 69-88), the classifier `decide_signal`
(lines 90-111), the Telegram notifier `tg_send` (lines 34-50), and the body of
the `main` polling loop (lines 116-165): window eviction, the debounce gate and
the error-handling branches.

Prices and timestamps are modelled as rationals: on the exact values used in
this development the CPython float operations of the source coincide with exact
rational arithmetic.
-/

/-- Directional verdicts.  The source uses the strings `"UP"` / `"DOWN"`,
with Python `None` embedded as `Option.none` at use sites. -/
inductive Sig
  | UP
  | DOWN
  deriving DecidableEq

/-- Source string constant of line 11 (empty when the env var is unset). -/
def BOT_TOKEN : String := ""

/-- Source string constant of line 12 (empty when the env var is unset). -/
def CHAT_ID : String := ""

/-- Source string constant of line 14, default value. -/
def SYMBOL : String := "bitcoin"

/-- Source string constant of line 15, default value. -/
def VS : String := "usd"

/-- The environment-derived configuration constants of `src/main.py`
(lines 11-26).  The field `MAX_ZIGZAG` embeds the source constant
`MAX_ZIGZAG_RATIO` of line 23. -/
structure Config where
  botToken : String
  chatId : String
  symbol : String
  vs : String
  SAMPLE_INTERVAL_SEC : ℚ
  WINDOW_SEC : ℚ
  MIN_MOVE_PCT : ℚ
  COOLDOWN_SEC : ℚ
  MAX_ZIGZAG : ℚ
  deriving DecidableEq

/-- The default configuration of `src/main.py`: sample every 10 s, 300 s
window, 0.10 % minimum move, 60 s cooldown, 0.65 noise ceiling. -/
def defaultConfig : Config :=
  ⟨BOT_TOKEN, CHAT_ID, SYMBOL, VS, 10, 300, 1 / 10, 60, 65 / 100⟩

/-- Embeds `pct_change` (lines 63-67): percent change from `a` to `b`,
defined as `0` when `a = 0`. -/
def pct_change (a b : ℚ) : ℚ :=
  if a = 0 then 0 else (b - a) / a * 100

/-- Embeds the `steps` accumulation loop of `zigzag_ratio` (lines 78-80):
the sum of the absolute consecutive step distances of the price path. -/
def pathSteps : List ℚ → ℚ
  | a :: b :: rest => |b - a| + pathSteps (b :: rest)
  | _ => 0

/-- Embeds `zigzag_ratio` (lines 69-88): `0` for fewer than 3 samples, `1`
when the net displacement is zero, otherwise the path ratio normalized into
`[0,1]` by `min 1 (max 0 ((raw - 1) / 4))`. -/
def zigzag_ratio (prices : List ℚ) : ℚ :=
  if prices.length < 3 then 0
  else if |prices.getLastD 0 - prices.headD 0| = 0 then 1
  else min 1 (max 0 ((pathSteps prices / |prices.getLastD 0 - prices.headD 0| - 1) / 4))

/-- Embeds `decide_signal` (lines 90-111): the classifier returning
`(signal-or-none, move_pct, zigzag)`.  The Lean function is total, embedding
the fact that the source classifier never raises. -/
def decide_signal (cfg : Config) (prices : List ℚ) : Option Sig × ℚ × ℚ :=
  if prices.length < 2 then (none, 0, 0)
  else if |pct_change (prices.headD 0) (prices.getLastD 0)| < cfg.MIN_MOVE_PCT then
    (none, pct_change (prices.headD 0) (prices.getLastD 0), zigzag_ratio prices)
  else if cfg.MAX_ZIGZAG < zigzag_ratio prices then
    (none, pct_change (prices.headD 0) (prices.getLastD 0), zigzag_ratio prices)
  else
    (some (if 0 < pct_change (prices.headD 0) (prices.getLastD 0) then Sig.UP else Sig.DOWN),
      pct_change (prices.headD 0) (prices.getLastD 0), zigzag_ratio prices)

/-- Modelled from the spec: the range-ratio noise formulation of spec section
4.2 item b, `(max(prices) - min(prices)) / first_price * 100`, which
`src/main.py` does not implement; defined here only to compare against the
implemented path-ratio strategy. -/
def rangeRatioSpec (prices : List ℚ) : ℚ :=
  (prices.foldl max (prices.headD 0) - prices.foldl min (prices.headD 0))
    / prices.headD 0 * 100

lemma decide_signal_noise (cfg : Config) (prices : List ℚ) :
    (decide_signal cfg prices).2.2 =
      if prices.length < 2 then 0 else zigzag_ratio prices := by
  unfold decide_signal
  split_ifs <;> rfl

/-- C2: `decide_signal` applies its rules in order: fewer than 2 samples gives
NONE (with zero scores); a move below `MIN_MOVE_PCT` in absolute value gives
NONE regardless of noise; a noise score above the ceiling gives NONE regardless
of move size; otherwise the verdict is UP for a positive move and DOWN
otherwise.  Totality of the Lean function embeds that the source never
raises. -/
theorem decide_signal_rules (cfg : Config) (prices : List ℚ) :
    (prices.length < 2 → decide_signal cfg prices = (none, 0, 0))
    ∧ (2 ≤ prices.length →
        |pct_change (prices.headD 0) (prices.getLastD 0)| < cfg.MIN_MOVE_PCT →
        (decide_signal cfg prices).1 = none)
    ∧ (2 ≤ prices.length →
        cfg.MIN_MOVE_PCT ≤ |pct_change (prices.headD 0) (prices.getLastD 0)| →
        cfg.MAX_ZIGZAG < zigzag_ratio prices →
        (decide_signal cfg prices).1 = none)
    ∧ (2 ≤ prices.length →
        cfg.MIN_MOVE_PCT ≤ |pct_change (prices.headD 0) (prices.getLastD 0)| →
        zigzag_ratio prices ≤ cfg.MAX_ZIGZAG →
        (decide_signal cfg prices).1 =
          some (if 0 < pct_change (prices.headD 0) (prices.getLastD 0)
            then Sig.UP else Sig.DOWN)) := by
  refine ⟨?_, ?_, ?_, ?_⟩
  · intro h
    unfold decide_signal
    rw [if_pos h]
  · intro h2 hmv
    unfold decide_signal
    rw [if_neg (not_lt.mpr h2), if_pos hmv]
  · intro h2 hmv hzz
    unfold decide_signal
    rw [if_neg (not_lt.mpr h2), if_neg (not_lt.mpr hmv), if_pos hzz]
  · intro h2 hmv hzz
    unfold decide_signal
    rw [if_neg (not_lt.mpr h2), if_neg (not_lt.mpr hmv), if_neg (not_lt.mpr hzz)]

theorem decide_signal_rules_witness :
    (decide_signal defaultConfig [100, 101]).1 =
      some (if 0 < pct_change (([100, 101] : List ℚ).headD 0)
          (([100, 101] : List ℚ).getLastD 0) then Sig.UP else Sig.DOWN) :=
  (decide_signal_rules defaultConfig [100, 101]).2.2.2 (by decide)
    (by norm_num [defaultConfig, pct_change, List.headD, List.getLastD])
    (by norm_num [defaultConfig, zigzag_ratio])

/-- C4: the `move_pct` component of `decide_signal` is `0` for fewer than 2
samples and when the opening price is `0` (no division-by-zero error), and
otherwise equals `(last - first) / first * 100` exactly. -/
theorem net_move_pct_spec (cfg : Config) (prices : List ℚ) :
    (decide_signal cfg prices).2.1 =
      if prices.length < 2 then 0
      else if prices.headD 0 = 0 then 0
      else (prices.getLastD 0 - prices.headD 0) / prices.headD 0 * 100 := by
  unfold decide_signal pct_change
  split_ifs <;> rfl

/-- C5: `zigzag_ratio` is `0` for fewer than 3 samples; with at least 3
samples it is exactly `1` when the net displacement is zero, and otherwise
equals the clamp of `(raw - 1) / 4` into `[0,1]`, where `raw` is the total
absolute step distance divided by the absolute net displacement. -/
theorem zigzag_rules (prices : List ℚ) :
    (prices.length < 3 → zigzag_ratio prices = 0)
    ∧ (3 ≤ prices.length → |prices.getLastD 0 - prices.headD 0| = 0 →
        zigzag_ratio prices = 1)
    ∧ (3 ≤ prices.length → |prices.getLastD 0 - prices.headD 0| ≠ 0 →
        zigzag_ratio prices =
          min 1 (max 0
            ((pathSteps prices / |prices.getLastD 0 - prices.headD 0| - 1) / 4))) := by
  refine ⟨?_, ?_, ?_⟩
  · intro h
    unfold zigzag_ratio
    rw [if_pos h]
  · intro h3 hnet
    unfold zigzag_ratio
    rw [if_neg (not_lt.mpr h3), if_pos hnet]
  · intro h3 hnet
    unfold zigzag_ratio
    rw [if_neg (not_lt.mpr h3), if_neg hnet]

theorem zigzag_rules_witness :
    zigzag_ratio [0, 2, 1] =
      min 1 (max 0
        ((pathSteps [0, 2, 1] / |([0, 2, 1] : List ℚ).getLastD 0 - ([0, 2, 1] : List ℚ).headD 0| - 1) / 4)) :=
  (zigzag_rules [0, 2, 1]).2.2 (by decide)
    (by norm_num [List.headD, List.getLastD])

/-- C6 counterexample: the flat two-sample path `[5, 5]` has net displacement
`0` and one consecutive step, yet `zigzag_ratio` returns `0`, not `1`
(the source requires at least 3 samples before the flat-path special case). -/
theorem zigzag_flat_pair_cex :
    ([5, 5] : List ℚ).length = 2
    ∧ ([5, 5] : List ℚ).getLastD 0 - ([5, 5] : List ℚ).headD 0 = 0
    ∧ zigzag_ratio [5, 5] = 0
    ∧ zigzag_ratio [5, 5] ≠ 1 := by
  norm_num [zigzag_ratio, List.headD, List.getLastD]

/-- C6 (amended): `zigzag_ratio` is `1` whenever the net displacement is `0`
and the window holds at least 3 samples (at least two consecutive steps);
in every case the score lies in `[0, 1]`. -/
theorem zigzag_flat_bounds (prices : List ℚ) :
    (3 ≤ prices.length → prices.getLastD 0 - prices.headD 0 = 0 →
        zigzag_ratio prices = 1)
    ∧ 0 ≤ zigzag_ratio prices ∧ zigzag_ratio prices ≤ 1 := by
  refine ⟨?_, ?_⟩
  · intro h3 hnet
    unfold zigzag_ratio
    rw [if_neg (not_lt.mpr h3), if_pos (by rw [hnet]; exact abs_zero)]
  · unfold zigzag_ratio
    split_ifs with h1 h2
    · norm_num
    · norm_num
    · exact ⟨le_min (by norm_num) (le_max_left 0 _), min_le_left 1 _⟩

theorem zigzag_flat_bounds_witness :
    zigzag_ratio [7, 7, 7] = 1 :=
  (zigzag_flat_bounds [7, 7, 7]).1 (by decide)
    (by norm_num [List.headD, List.getLastD])

/-- C7 counterexample: no configuration makes the noise score of the engine
equal to the spec's range-ratio formulation on the window `[1, 3, 2]`: the
classifier's noise component is the path ratio (here `1/2`) for every
configuration, while the range ratio is `200`; there is no noise-scoring
strategy selector in the configuration surface. -/
theorem noise_strategy_cex :
    ¬ ∃ cfg : Config, (decide_signal cfg [1, 3, 2]).2.2 = rangeRatioSpec [1, 3, 2] := by
  rintro ⟨cfg, h⟩
  rw [decide_signal_noise] at h
  norm_num at h
  have h1 : zigzag_ratio [1, 3, 2] = 1 / 2 := by
    norm_num [zigzag_ratio, pathSteps, List.headD, List.getLastD, min_def, max_def]
  have h2 : rangeRatioSpec [1, 3, 2] = 200 := by
    norm_num [rangeRatioSpec, List.headD, min_def, max_def]
  rw [h1, h2] at h
  norm_num at h

/-- C7 (amended): the configuration surface of `src/main.py` contains no
noise-scoring strategy selector; for every configuration the noise component
of the classifier is the path-ratio score `zigzag_ratio` (and `0` below 2
samples); the range-ratio formulation is not implemented. -/
theorem noise_is_path_only (cfg : Config) (prices : List ℚ) :
    (decide_signal cfg prices).2.2 =
      if prices.length < 2 then 0 else zigzag_ratio prices :=
  decide_signal_noise cfg prices

/-- The debounce-gate state of the main loop: `last_alert_ts` (line 120,
initialized to `0.0`) and `last_signal` (line 121, initialized to `None`). -/
structure GateState where
  last_alert_ts : ℚ
  last_signal : Option Sig
  deriving DecidableEq

/-- The mutable state of the main loop: the `points` deque of
`(timestamp, price)` pairs (line 119) and the gate state. -/
structure LoopState where
  points : List (ℚ × ℚ)
  gate : GateState
  deriving DecidableEq

/-- The content of the alert message formatted on lines 145-151: verdict,
current price, net move, noise score and timestamp. -/
structure AlertMsg where
  sig : Sig
  price : ℚ
  move_pct : ℚ
  zigzag : ℚ
  time : ℚ
  deriving DecidableEq

/-- Outcome of the per-tick price fetch: a price, or one of the two failure
classes caught on lines 158-165 (`requests.HTTPError`, any other
`Exception`). -/
inductive FetchResult
  | ok (price : ℚ)
  | httpError
  | otherError
  deriving DecidableEq

/-- Observable result of one iteration of the `while True` loop: the new
state, the emitted alert (if any), the number of operator error notices sent,
and the sleep duration in seconds. -/
structure TickResult where
  state : LoopState
  alert : Option AlertMsg
  notices : ℕ
  sleep : ℚ
  deriving DecidableEq

/-- Initial loop state (lines 119-121): empty window, `last_alert_ts = 0.0`,
`last_signal = None`. -/
def initState : LoopState := ⟨[], ⟨0, none⟩⟩

/-- Embeds the eviction loop of lines 130-131: pop from the front while the
front sample is older than `WINDOW_SEC` relative to `now`. -/
def evict (cfg : Config) (now : ℚ) : List (ℚ × ℚ) → List (ℚ × ℚ)
  | [] => []
  | s :: rest => if cfg.WINDOW_SEC < now - s.1 then evict cfg now rest else s :: rest

/-- One push-and-evict step of the window (lines 127-131): append the fresh
sample, then evict stale samples from the front. -/
def pushEvict (cfg : Config) (pts : List (ℚ × ℚ)) (now price : ℚ) : List (ℚ × ℚ) :=
  evict cfg now (pts ++ [(now, price)])

/-- The price snapshot taken on line 133 after the push-and-evict step. -/
def tickPrices (cfg : Config) (st : LoopState) (now price : ℚ) : List ℚ :=
  (pushEvict cfg st.points now price).map Prod.snd

/-- Embeds the debounce gate of lines 140-154: emit iff the verdict is
present, the cooldown has elapsed since `last_alert_ts`, and the verdict
differs from `last_signal`; on emission both fields are updated. -/
def gateStep (cfg : Config) (g : GateState) (now price move zz : ℚ) :
    Option Sig → GateState × Option AlertMsg
  | none => (g, none)
  | some s =>
    if cfg.COOLDOWN_SEC ≤ now - g.last_alert_ts ∧ g.last_signal ≠ some s then
      (⟨now, some s⟩, some ⟨s, price, move, zz, now⟩)
    else (g, none)

/-- Embeds one iteration of the `while True` loop (lines 123-165).  On a
successful fetch: push-and-evict, classify, gate, sleep `SAMPLE_INTERVAL_SEC`.
On either exception branch: state untouched, one operator notice, sleep 20. -/
def tick (cfg : Config) (st : LoopState) (now : ℚ) : FetchResult → TickResult
  | FetchResult.ok price =>
    ⟨⟨pushEvict cfg st.points now price,
        (gateStep cfg st.gate now price
          (decide_signal cfg (tickPrices cfg st now price)).2.1
          (decide_signal cfg (tickPrices cfg st now price)).2.2
          (decide_signal cfg (tickPrices cfg st now price)).1).1⟩,
      (gateStep cfg st.gate now price
        (decide_signal cfg (tickPrices cfg st now price)).2.1
        (decide_signal cfg (tickPrices cfg st now price)).2.2
        (decide_signal cfg (tickPrices cfg st now price)).1).2,
      0, cfg.SAMPLE_INTERVAL_SEC⟩
  | FetchResult.httpError => ⟨st, none, 1, 20⟩
  | FetchResult.otherError => ⟨st, none, 1, 20⟩

/-- Runs the loop body over a list of `(timestamp, fetch-outcome)` inputs,
collecting the emitted alerts in order. -/
def runTicks (cfg : Config) : LoopState → List (ℚ × FetchResult) → LoopState × List AlertMsg
  | st, [] => (st, [])
  | st, i :: rest =>
    ((runTicks cfg (tick cfg st i.1 i.2).state rest).1,
      (tick cfg st i.1 i.2).alert.toList ++ (runTicks cfg (tick cfg st i.1 i.2).state rest).2)

lemma evict_isSuffix (cfg : Config) (now : ℚ) :
    ∀ l : List (ℚ × ℚ), List.IsSuffix (evict cfg now l) l := by
  intro l
  induction l with
  | nil => exact List.suffix_refl _
  | cons s rest ih =>
    by_cases h : cfg.WINDOW_SEC < now - s.1
    · rw [show evict cfg now (s :: rest) = evict cfg now rest from by simp [evict, h]]
      exact ih.trans (List.suffix_cons s rest)
    · simp [evict, h]

lemma evict_bound (cfg : Config) (now : ℚ) :
    ∀ l : List (ℚ × ℚ), List.Sorted (· ≤ ·) (l.map Prod.fst) →
      ∀ s ∈ evict cfg now l, now - s.1 ≤ cfg.WINDOW_SEC := by
  intro l
  induction l with
  | nil => intro _ s hs; simp [evict] at hs
  | cons a rest ih =>
    intro hsort s hs
    rw [List.map_cons, List.sorted_cons] at hsort
    by_cases h : cfg.WINDOW_SEC < now - a.1
    · rw [show evict cfg now (a :: rest) = evict cfg now rest from by simp [evict, h]] at hs
      exact ih hsort.2 s hs
    · rw [show evict cfg now (a :: rest) = a :: rest from by simp [evict, h]] at hs
      rcases List.mem_cons.mp hs with rfl | hs'
      · linarith [not_lt.mp h]
      · have ha : a.1 ≤ s.1 := hsort.1 s.1 (List.mem_map_of_mem Prod.fst hs')
        have h' := not_lt.mp h
        linarith

/-- C3: one push-and-evict step on a window whose timestamps are
non-decreasing and bounded by the pushed timestamp `now` yields a window that
is a suffix of the appended list (eviction removes only from the front), whose
samples are all within `WINDOW_SEC` of `now`, and whose timestamps are still
non-decreasing and bounded by `now` (so the invariant holds after each step of
any push sequence with non-decreasing timestamps). -/
theorem window_push_evict_inv (cfg : Config) (pts : List (ℚ × ℚ)) (now price : ℚ)
    (hsort : List.Sorted (· ≤ ·) (pts.map Prod.fst))
    (hle : ∀ t ∈ pts.map Prod.fst, t ≤ now) :
    List.IsSuffix (pushEvict cfg pts now price) (pts ++ [(now, price)])
    ∧ (∀ s ∈ pushEvict cfg pts now price, now - s.1 ≤ cfg.WINDOW_SEC)
    ∧ List.Sorted (· ≤ ·) ((pushEvict cfg pts now price).map Prod.fst)
    ∧ (∀ t ∈ (pushEvict cfg pts now price).map Prod.fst, t ≤ now) := by
  have hsorted : List.Sorted (· ≤ ·) ((pts ++ [(now, price)]).map Prod.fst) := by
    rw [List.map_append]
    refine List.pairwise_append.mpr ⟨hsort, List.sorted_singleton _, ?_⟩
    intro x hx y hy
    simp only [List.map_cons, List.map_nil, List.mem_singleton] at hy
    subst hy
    exact hle x hx
  have hsuffix : List.IsSuffix (pushEvict cfg pts now price) (pts ++ [(now, price)]) :=
    evict_isSuffix cfg now (pts ++ [(now, price)])
  have hsub : List.Sublist ((pushEvict cfg pts now price).map Prod.fst)
      ((pts ++ [(now, price)]).map Prod.fst) :=
    (hsuffix.sublist).map Prod.fst
  refine ⟨hsuffix, evict_bound cfg now _ hsorted, hsorted.sublist hsub, ?_⟩
  intro t ht
  have hmem := hsub.subset ht
  rw [List.map_append] at hmem
  rcases List.mem_append.mp hmem with hmem | hmem
  · exact hle t hmem
  · simp only [List.map_cons, List.map_nil, List.mem_singleton] at hmem
    subst hmem
    exact le_refl t

theorem window_push_evict_inv_witness :
    List.IsSuffix (pushEvict defaultConfig [(0, 100), (10, 101)] 301 102)
      ([(0, 100), (10, 101)] ++ [(301, 102)]) :=
  (window_push_evict_inv defaultConfig [(0, 100), (10, 101)] 301 102
    (by norm_num [List.sorted_cons]) (by norm_num)).1

/-- C8: on either fetch-failure branch the tick leaves the entire loop state
(window and gate) unchanged, emits no alert, notifies the operator exactly
once, and sleeps a fixed 20 s backoff, which exceeds the default 10 s tick
interval; the branch returns normally, so the failure is never fatal. -/
theorem fetch_failure_safe (cfg : Config) (st : LoopState) (now : ℚ) :
    tick cfg st now FetchResult.httpError = ⟨st, none, 1, 20⟩
    ∧ tick cfg st now FetchResult.otherError = ⟨st, none, 1, 20⟩
    ∧ defaultConfig.SAMPLE_INTERVAL_SEC < 20 :=
  ⟨rfl, rfl, by norm_num [defaultConfig]⟩

/-- Outcome of the underlying Telegram delivery attempt inside `tg_send`:
either the POST succeeds, or some exception is raised with message `err`. -/
inductive DeliveryOutcome
  | success
  | failure (err : String)
  deriving DecidableEq

/-- The log line produced on line 50 when a Telegram send fails. -/
def tgFailText : String := "Telegram send failed: "

/-- Embeds `tg_send` (lines 34-50) as a function of the delivery outcome.
The result is the list of printed log lines; an `Except.error` would model a
propagated exception, which the source's `try`/`except` rules out. -/
def tg_send (token chat text : String) (o : DeliveryOutcome) :
    Except String (List String) :=
  if token = "" ∨ chat = "" then Except.ok [text]
  else
    match o with
    | DeliveryOutcome.success => Except.ok [text]
    | DeliveryOutcome.failure e => Except.ok [text, tgFailText ++ e]

/-- C9: for every message and every delivery outcome `tg_send` returns
normally (an `Except.ok` carrying its log lines, the message always among
them) and never propagates an error; a delivery failure is merely logged.
Since the call returns normally it can neither abort the loop nor disturb the
window or gate state, which `tg_send` does not touch. -/
theorem tg_send_never_raises (token chat text : String) (o : DeliveryOutcome) :
    (∃ logs, tg_send token chat text o = Except.ok logs ∧ text ∈ logs)
    ∧ (∀ e, token ≠ "" → chat ≠ "" → o = DeliveryOutcome.failure e →
        tg_send token chat text o = Except.ok [text, tgFailText ++ e]) := by
  by_cases h : token = "" ∨ chat = ""
  · refine ⟨⟨[text], ?_, List.mem_singleton_self text⟩, ?_⟩
    · simp [tg_send, h]
    · intro e h1 h2 _
      rcases h with h | h
      · exact absurd h h1
      · exact absurd h h2
  · cases o with
    | success =>
      refine ⟨⟨[text], ?_, List.mem_singleton_self text⟩, ?_⟩
      · simp [tg_send, h]
      · intro e _ _ heq
        exact DeliveryOutcome.noConfusion heq
    | failure e0 =>
      refine ⟨⟨[text, tgFailText ++ e0], ?_, List.mem_cons_self text _⟩, ?_⟩
      · simp [tg_send, h]
      · intro e _ _ heq
        injection heq with he
        subst he
        simp [tg_send, h]

/-- Sample token used to instantiate the notifier theorem. -/
def tokSample : String := "t"

/-- Sample message text used to instantiate the notifier theorem. -/
def textSample : String := "hello"

theorem tg_send_never_raises_witness :
    tg_send tokSample tokSample textSample (DeliveryOutcome.failure textSample)
      = Except.ok [textSample, tgFailText ++ textSample] :=
  (tg_send_never_raises tokSample tokSample textSample
      (DeliveryOutcome.failure textSample)).2 textSample
    (by simp [tokSample]) (by simp [tokSample]) rfl

lemma tick_ok_alert (cfg : Config) (st : LoopState) (now price : ℚ) :
    (tick cfg st now (FetchResult.ok price)).alert =
      (gateStep cfg st.gate now price
        (decide_signal cfg (tickPrices cfg st now price)).2.1
        (decide_signal cfg (tickPrices cfg st now price)).2.2
        (decide_signal cfg (tickPrices cfg st now price)).1).2 := rfl

lemma tick_ok_gate (cfg : Config) (st : LoopState) (now price : ℚ) :
    (tick cfg st now (FetchResult.ok price)).state.gate =
      (gateStep cfg st.gate now price
        (decide_signal cfg (tickPrices cfg st now price)).2.1
        (decide_signal cfg (tickPrices cfg st now price)).2.2
        (decide_signal cfg (tickPrices cfg st now price)).1).1 := rfl

lemma gateStep_alert_none (cfg : Config) (g : GateState) (now price move zz : ℚ) :
    ∀ v : Option Sig, (gateStep cfg g now price move zz v).2 = none →
      (gateStep cfg g now price move zz v).1 = g := by
  intro v
  cases v with
  | none => intro _; rfl
  | some s =>
    by_cases hc : cfg.COOLDOWN_SEC ≤ now - g.last_alert_ts ∧ g.last_signal ≠ some s
    · intro h
      simp [gateStep, hc] at h
    · intro _
      simp [gateStep, hc]

lemma gateStep_alert_some (cfg : Config) (g : GateState) (now price move zz : ℚ) :
    ∀ (v : Option Sig) (m : AlertMsg), (gateStep cfg g now price move zz v).2 = some m →
      (gateStep cfg g now price move zz v).1 = ⟨now, some m.sig⟩
      ∧ v = some m.sig ∧ g.last_signal ≠ some m.sig
      ∧ cfg.COOLDOWN_SEC ≤ now - g.last_alert_ts
      ∧ m.price = price ∧ m.move_pct = move ∧ m.zigzag = zz ∧ m.time = now := by
  intro v m
  cases v with
  | none => intro h; simp [gateStep] at h
  | some s =>
    by_cases hc : cfg.COOLDOWN_SEC ≤ now - g.last_alert_ts ∧ g.last_signal ≠ some s
    · intro h
      simp only [gateStep, if_pos hc, Option.some.injEq] at h
      subst h
      exact ⟨by simp [gateStep, hc], rfl, hc.2, hc.1, rfl, rfl, rfl, rfl⟩
    · intro h
      simp [gateStep, hc] at h

lemma gateStep_isSome_iff (cfg : Config) (g : GateState) (now price move zz : ℚ) :
    ∀ v : Option Sig,
      (gateStep cfg g now price move zz v).2.isSome = true ↔
        v.isSome = true ∧ cfg.COOLDOWN_SEC ≤ now - g.last_alert_ts ∧ v ≠ g.last_signal := by
  intro v
  cases v with
  | none => simp [gateStep]
  | some s =>
    by_cases hc : cfg.COOLDOWN_SEC ≤ now - g.last_alert_ts ∧ g.last_signal ≠ some s
    · simp only [gateStep, if_pos hc, Option.isSome_some, true_iff, true_and]
      exact ⟨hc.1, fun he => hc.2 he.symm⟩
    · simp only [gateStep, if_neg hc, Option.isSome_none, Option.isSome_some, true_and]
      constructor
      · intro hfalse; exact absurd hfalse (by simp)
      · intro ⟨h1, h2⟩
        exact absurd ⟨h1, fun he => h2 he.symm⟩ hc

lemma tick_alert_none (cfg : Config) (st : LoopState) (now : ℚ) :
    ∀ fr : FetchResult, (tick cfg st now fr).alert = none →
      (tick cfg st now fr).state.gate = st.gate := by
  intro fr
  cases fr with
  | ok price =>
    intro h
    rw [tick_ok_alert] at h
    rw [tick_ok_gate]
    exact gateStep_alert_none cfg st.gate now price _ _ _ h
  | httpError => intro _; rfl
  | otherError => intro _; rfl

lemma tick_alert_some (cfg : Config) (st : LoopState) (now : ℚ) :
    ∀ (fr : FetchResult) (m : AlertMsg), (tick cfg st now fr).alert = some m →
      (tick cfg st now fr).state.gate = ⟨now, some m.sig⟩
      ∧ st.gate.last_signal ≠ some m.sig := by
  intro fr m
  cases fr with
  | ok price =>
    intro h
    rw [tick_ok_alert] at h
    have h2 := gateStep_alert_some cfg st.gate now price _ _ _ m h
    exact ⟨by rw [tick_ok_gate]; exact h2.1, h2.2.2.1⟩
  | httpError => intro h; exact Option.noConfusion h
  | otherError => intro h; exact Option.noConfusion h

/-- C1 counterexample: the gate has no "unset" marker for
`last_emission_time`; the source initializes `last_alert_ts = 0.0`, so on a
first-ever tick with a fresh UP verdict at `now = 10 < COOLDOWN_SEC = 60` no
alert is emitted even though no emission has occurred yet and the verdict
differs from the last emitted one — contradicting the claim's "or no emission
has occurred yet" disjunct and its "exactly one emission" consequence. -/
theorem debounce_first_tick_cex :
    (tick defaultConfig initState 0 (FetchResult.ok 100)).alert = none
    ∧ (tick defaultConfig initState 0 (FetchResult.ok 100)).state
        = ⟨[(0, 100)], ⟨0, none⟩⟩
    ∧ (decide_signal defaultConfig
        (tickPrices defaultConfig (⟨[(0, 100)], ⟨0, none⟩⟩ : LoopState) 10 101)).1
        = some Sig.UP
    ∧ (tick defaultConfig (⟨[(0, 100)], ⟨0, none⟩⟩ : LoopState) 10
        (FetchResult.ok 101)).alert = none := by
  have e1 : pushEvict defaultConfig ([] : List (ℚ × ℚ)) 0 100 = [(0, 100)] := by
    norm_num [pushEvict, evict, defaultConfig]
  have e2 : pushEvict defaultConfig [(0, 100)] 10 101 = [(0, 100), (10, 101)] := by
    norm_num [pushEvict, evict, defaultConfig]
  have d1 : decide_signal defaultConfig [(100 : ℚ)] = (none, 0, 0) := by
    norm_num [decide_signal]
  have d2 : decide_signal defaultConfig [100, 101] = (some Sig.UP, 1, 0) := by
    norm_num [decide_signal, pct_change, zigzag_ratio, defaultConfig,
      List.headD, List.getLastD]
  refine ⟨?_, ?_, ?_, ?_⟩
  · rw [tick_ok_alert]
    simp [tickPrices, initState, e1, d1, gateStep]
  · simp [tick, tickPrices, initState, e1, d1, gateStep]
  · simp [tickPrices, e2, d2]
  · rw [tick_ok_alert]
    have e3 : tickPrices defaultConfig (⟨[(0, 100)], ⟨0, none⟩⟩ : LoopState) 10 101
        = [100, 101] := by
      simp [tickPrices, e2]
    rw [e3, d2]
    norm_num [gateStep, defaultConfig]

/-- C1 (amended): on a successful-fetch tick the gate emits iff the verdict is
present, `now - last_alert_ts` has reached `COOLDOWN_SEC` — where
`last_alert_ts` is initialized to `0` rather than to an "unset" marker, so
even before the first emission the gate requires `now` itself to have passed
the cooldown — and the verdict differs from `last_signal`; on emission the
message carries the verdict, the current price, the net move, the noise score
and the timestamp, and the gate fields are set to the verdict and `now`; on a
non-emitting tick the gate state is left unchanged; and the verdict sequence
UP, UP, UP within one cooldown window (first verdict arriving after the
cooldown has passed since time 0) yields exactly one emission. -/
theorem debounce_gate_spec (cfg : Config) (st : LoopState) (now price : ℚ) :
    ((tick cfg st now (FetchResult.ok price)).alert.isSome = true ↔
      ((decide_signal cfg (tickPrices cfg st now price)).1.isSome = true
        ∧ cfg.COOLDOWN_SEC ≤ now - st.gate.last_alert_ts
        ∧ (decide_signal cfg (tickPrices cfg st now price)).1 ≠ st.gate.last_signal))
    ∧ (∀ m : AlertMsg, (tick cfg st now (FetchResult.ok price)).alert = some m →
        (tick cfg st now (FetchResult.ok price)).state.gate = ⟨now, some m.sig⟩
        ∧ some m.sig = (decide_signal cfg (tickPrices cfg st now price)).1
        ∧ m.price = price
        ∧ m.move_pct = (decide_signal cfg (tickPrices cfg st now price)).2.1
        ∧ m.zigzag = (decide_signal cfg (tickPrices cfg st now price)).2.2
        ∧ m.time = now)
    ∧ ((tick cfg st now (FetchResult.ok price)).alert = none →
        (tick cfg st now (FetchResult.ok price)).state.gate = st.gate)
    ∧ ((runTicks defaultConfig initState
          [(1000, FetchResult.ok 100), (1010, FetchResult.ok 101),
            (1020, FetchResult.ok 102), (1030, FetchResult.ok 103)]).2.map
          AlertMsg.sig = [Sig.UP]) := by
  refine ⟨?_, ?_, ?_, ?_⟩
  · rw [tick_ok_alert]
    exact gateStep_isSome_iff cfg st.gate now price _ _ _
  · intro m hm
    rw [tick_ok_alert] at hm
    have h2 := gateStep_alert_some cfg st.gate now price _ _ _ m hm
    exact ⟨by rw [tick_ok_gate]; exact h2.1, h2.2.1.symm, h2.2.2.2.2.1,
      h2.2.2.2.2.2.1, h2.2.2.2.2.2.2.1, h2.2.2.2.2.2.2.2⟩
  · intro hm
    rw [tick_ok_alert] at hm
    rw [tick_ok_gate]
    exact gateStep_alert_none cfg st.gate now price _ _ _ hm
  · have p1 : pushEvict defaultConfig ([] : List (ℚ × ℚ)) 1000 100
        = [(1000, 100)] := by
      norm_num [pushEvict, evict, defaultConfig]
    have p2 : pushEvict defaultConfig [(1000, 100)] 1010 101
        = [(1000, 100), (1010, 101)] := by
      norm_num [pushEvict, evict, defaultConfig]
    have p3 : pushEvict defaultConfig [(1000, 100), (1010, 101)] 1020 102
        = [(1000, 100), (1010, 101), (1020, 102)] := by
      norm_num [pushEvict, evict, defaultConfig]
    have p4 : pushEvict defaultConfig [(1000, 100), (1010, 101), (1020, 102)] 1030 103
        = [(1000, 100), (1010, 101), (1020, 102), (1030, 103)] := by
      norm_num [pushEvict, evict, defaultConfig]
    have d1 : decide_signal defaultConfig [(100 : ℚ)] = (none, 0, 0) := by
      norm_num [decide_signal]
    have d2 : decide_signal defaultConfig [100, 101] = (some Sig.UP, 1, 0) := by
      norm_num [decide_signal, pct_change, zigzag_ratio, defaultConfig,
        List.headD, List.getLastD]
    have d3 : decide_signal defaultConfig [100, 101, 102] = (some Sig.UP, 2, 0) := by
      norm_num [decide_signal, pct_change, zigzag_ratio, pathSteps, defaultConfig,
        List.headD, List.getLastD, min_def, max_def]
    have d4 : decide_signal defaultConfig [100, 101, 102, 103]
        = (some Sig.UP, 3, 0) := by
      norm_num [decide_signal, pct_change, zigzag_ratio, pathSteps, defaultConfig,
        List.headD, List.getLastD, min_def, max_def]
    have g1 : gateStep defaultConfig (⟨0, none⟩ : GateState) 1000 100 0 0 none
        = ((⟨0, none⟩ : GateState), none) := rfl
    have g2 : gateStep defaultConfig (⟨0, none⟩ : GateState) 1010 101 1 0 (some Sig.UP)
        = (⟨1010, some Sig.UP⟩, some ⟨Sig.UP, 101, 1, 0, 1010⟩) := by
      have hc : defaultConfig.COOLDOWN_SEC ≤ 1010 - (⟨0, none⟩ : GateState).last_alert_ts
          ∧ (⟨0, none⟩ : GateState).last_signal ≠ some Sig.UP :=
        ⟨by norm_num [defaultConfig], by simp⟩
      simp only [gateStep]
      rw [if_pos hc]
    have g3 : gateStep defaultConfig (⟨1010, some Sig.UP⟩ : GateState) 1020 102 2 0
          (some Sig.UP) = ((⟨1010, some Sig.UP⟩ : GateState), none) := by
      have hc : ¬ (defaultConfig.COOLDOWN_SEC ≤
            1020 - (⟨1010, some Sig.UP⟩ : GateState).last_alert_ts
          ∧ (⟨1010, some Sig.UP⟩ : GateState).last_signal ≠ some Sig.UP) :=
        fun h => h.2 rfl
      simp only [gateStep]
      rw [if_neg hc]
    have g4 : gateStep defaultConfig (⟨1010, some Sig.UP⟩ : GateState) 1030 103 3 0
          (some Sig.UP) = ((⟨1010, some Sig.UP⟩ : GateState), none) := by
      have hc : ¬ (defaultConfig.COOLDOWN_SEC ≤
            1030 - (⟨1010, some Sig.UP⟩ : GateState).last_alert_ts
          ∧ (⟨1010, some Sig.UP⟩ : GateState).last_signal ≠ some Sig.UP) :=
        fun h => h.2 rfl
      simp only [gateStep]
      rw [if_neg hc]
    have e1t : tickPrices defaultConfig (⟨[], ⟨0, none⟩⟩ : LoopState) 1000 100
        = [(100 : ℚ)] := by
      simp [tickPrices, p1]
    have e2t : tickPrices defaultConfig (⟨[(1000, 100)], ⟨0, none⟩⟩ : LoopState) 1010 101
        = [100, 101] := by
      simp [tickPrices, p2]
    have e3t : tickPrices defaultConfig
        (⟨[(1000, 100), (1010, 101)], ⟨1010, some Sig.UP⟩⟩ : LoopState) 1020 102
        = [100, 101, 102] := by
      simp [tickPrices, p3]
    have e4t : tickPrices defaultConfig
        (⟨[(1000, 100), (1010, 101), (1020, 102)], ⟨1010, some Sig.UP⟩⟩ : LoopState)
        1030 103 = [100, 101, 102, 103] := by
      simp [tickPrices, p4]
    have t1 : tick defaultConfig initState 1000 (FetchResult.ok 100)
        = ⟨⟨[(1000, 100)], ⟨0, none⟩⟩, none, 0, defaultConfig.SAMPLE_INTERVAL_SEC⟩ := by
      simp only [tick, initState, e1t, d1, p1, g1]
    have t2 : tick defaultConfig (⟨[(1000, 100)], ⟨0, none⟩⟩ : LoopState) 1010
          (FetchResult.ok 101)
        = ⟨⟨[(1000, 100), (1010, 101)], ⟨1010, some Sig.UP⟩⟩,
            some ⟨Sig.UP, 101, 1, 0, 1010⟩, 0, defaultConfig.SAMPLE_INTERVAL_SEC⟩ := by
      simp only [tick, e2t, d2, p2, g2]
    have t3 : tick defaultConfig
          (⟨[(1000, 100), (1010, 101)], ⟨1010, some Sig.UP⟩⟩ : LoopState) 1020
          (FetchResult.ok 102)
        = ⟨⟨[(1000, 100), (1010, 101), (1020, 102)], ⟨1010, some Sig.UP⟩⟩,
            none, 0, defaultConfig.SAMPLE_INTERVAL_SEC⟩ := by
      simp only [tick, e3t, d3, p3, g3]
    have t4 : tick defaultConfig
          (⟨[(1000, 100), (1010, 101), (1020, 102)], ⟨1010, some Sig.UP⟩⟩ : LoopState)
          1030 (FetchResult.ok 103)
        = ⟨⟨[(1000, 100), (1010, 101), (1020, 102), (1030, 103)],
              ⟨1010, some Sig.UP⟩⟩, none, 0, defaultConfig.SAMPLE_INTERVAL_SEC⟩ := by
      simp only [tick, e4t, d4, p4, g4]
    simp [runTicks, t1, t2, t3, t4]

theorem debounce_gate_spec_witness :
    (tick defaultConfig (⟨[(1000, 100)], ⟨0, none⟩⟩ : LoopState) 1010
        (FetchResult.ok 101)).state.gate = ⟨1010, some Sig.UP⟩ := by
  have p2 : pushEvict defaultConfig [(1000, 100)] 1010 101
      = [(1000, 100), (1010, 101)] := by
    norm_num [pushEvict, evict, defaultConfig]
  have d2 : decide_signal defaultConfig [100, 101] = (some Sig.UP, 1, 0) := by
    norm_num [decide_signal, pct_change, zigzag_ratio, defaultConfig,
      List.headD, List.getLastD]
  have e2t : tickPrices defaultConfig (⟨[(1000, 100)], ⟨0, none⟩⟩ : LoopState) 1010 101
      = [100, 101] := by
    simp [tickPrices, p2]
  have halert : (tick defaultConfig (⟨[(1000, 100)], ⟨0, none⟩⟩ : LoopState) 1010
      (FetchResult.ok 101)).alert = some ⟨Sig.UP, 101, 1, 0, 1010⟩ := by
    rw [tick_ok_alert]
    have hc : defaultConfig.COOLDOWN_SEC ≤ 1010 - (⟨0, none⟩ : GateState).last_alert_ts
        ∧ (⟨0, none⟩ : GateState).last_signal ≠ some Sig.UP :=
      ⟨by norm_num [defaultConfig], by simp⟩
    simp only [e2t, d2, gateStep]
    rw [if_pos hc]
  exact ((debounce_gate_spec defaultConfig (⟨[(1000, 100)], ⟨0, none⟩⟩ : LoopState)
      1010 101).2.1 ⟨Sig.UP, 101, 1, 0, 1010⟩ halert).1

lemma runTicks_nil (cfg : Config) (st : LoopState) : runTicks cfg st [] = (st, []) := rfl

lemma runTicks_cons (cfg : Config) (st : LoopState) (i : ℚ × FetchResult)
    (rest : List (ℚ × FetchResult)) :
    runTicks cfg st (i :: rest) =
      ((runTicks cfg (tick cfg st i.1 i.2).state rest).1,
        (tick cfg st i.1 i.2).alert.toList ++
          (runTicks cfg (tick cfg st i.1 i.2).state rest).2) := rfl

lemma runTicks_chain (cfg : Config) :
    ∀ (inputs : List (ℚ × FetchResult)) (st : LoopState),
      List.Chain' (fun a b => a ≠ b)
        (st.gate.last_signal ::
          ((runTicks cfg st inputs).2.map (fun m => some m.sig))) := by
  intro inputs
  induction inputs with
  | nil =>
    intro st
    rw [runTicks_nil]
    simp
  | cons i rest ih =>
    intro st
    rcases halt : (tick cfg st i.1 i.2).alert with _ | m
    · have hg := tick_alert_none cfg st i.1 i.2 halt
      have h2 := ih (tick cfg st i.1 i.2).state
      rw [hg] at h2
      simpa [runTicks_cons, halt] using h2
    · have hs := tick_alert_some cfg st i.1 i.2 m halt
      have h2 := ih (tick cfg st i.1 i.2).state
      rw [hs.1] at h2
      simp only [runTicks_cons, halt, Option.toList_some, List.singleton_append,
        List.map_cons]
      exact List.chain'_cons.mpr ⟨hs.2, h2⟩

/-- C10: the gate never resets `last_signal` on NONE or otherwise non-emitting
ticks (second conjunct), and consequently over any run from the initial state
the emitted verdict sequence never repeats a verdict until an emission with a
different verdict has occurred first: adjacent emitted verdicts always
differ (first conjunct), regardless of elapsed time or intervening NONE
ticks. -/
theorem gate_no_repeat (cfg : Config) (inputs : List (ℚ × FetchResult)) :
    List.Chain' (fun a b => a ≠ b)
      (((runTicks cfg initState inputs).2).map AlertMsg.sig)
    ∧ ∀ (st : LoopState) (now : ℚ) (fr : FetchResult),
        (tick cfg st now fr).alert = none →
          (tick cfg st now fr).state.gate = st.gate := by
  constructor
  · have h := runTicks_chain cfg inputs initState
    have h2 := (List.chain'_cons'.mp h).2
    have h3 : ((runTicks cfg initState inputs).2.map (fun m => some m.sig))
        = ((runTicks cfg initState inputs).2.map AlertMsg.sig).map some := by
      rw [List.map_map]
      rfl
    rw [h3] at h2
    have h4 := (List.chain'_map some).mp h2
    exact h4.imp fun a b hab he => hab (congrArg some he)
  · intro st now fr h
    exact tick_alert_none cfg st now fr h

theorem gate_no_repeat_witness :
    (tick defaultConfig initState 5 (FetchResult.ok 100)).state.gate = initState.gate := by
  have p : pushEvict defaultConfig ([] : List (ℚ × ℚ)) 5 100 = [(5, 100)] := by
    norm_num [pushEvict, evict, defaultConfig]
  have e : tickPrices defaultConfig initState 5 100 = [(100 : ℚ)] := by
    simp [tickPrices, initState, p]
  have d : decide_signal defaultConfig [(100 : ℚ)] = (none, 0, 0) := by
    norm_num [decide_signal]
  have halert : (tick defaultConfig initState 5 (FetchResult.ok 100)).alert = none := by
    rw [tick_ok_alert]
    simp [e, d, gateStep]
  exact (gate_no_repeat defaultConfig []).2 initState 5 (FetchResult.ok 100) halert
